import Mathlib

/-!
Shallow embedding of the agentcc field-operations portal core:
the Supabase-token authentication middleware (`src/server/auth.ts`),
the storage layer (`DatabaseStorage` in `src/server/storage.ts`,
appended to `src/server/routes.ts`), the zod insert schema
(`src/shared/schema.ts`) and the Express route handlers
(`src/server/routes.ts`).

Conventions of the embedding:
* the relational tables `users` and `submissions` are lists of rows;
* nullable text columns are `Option String`; JavaScript truthiness of a
  string value (`undefined`/`null`/`""` are falsy) is `jsTruthy`;
* timestamps are `Nat` values supplied by the caller (server clock);
* fallible external calls (identity provider, database) are modelled by
  explicit result parameters / availability flags.
-/

namespace AgentCC

/-- `role varchar enum ["agent","manager"]` from `src/shared/schema.ts`. -/
inductive Role
  | agent
  | manager
deriving DecidableEq, Repr

/-- `service_type varchar enum ["feeding","maintenance"]` from `src/shared/schema.ts`. -/
inductive ServiceType
  | feeding
  | maintenance
deriving DecidableEq, Repr

/-- A row of the `users` table (`src/shared/schema.ts`).  `createdAt`/`updatedAt`
are omitted: no verified property mentions them. -/
structure User where
  id : String
  email : String
  firstName : Option String
  lastName : Option String
  profileImageUrl : Option String
  role : Role
deriving DecidableEq, Repr

/-- The `UpsertUser` insert payload (`typeof users.$inferInsert`). -/
structure UpsertUser where
  id : String
  email : String
  firstName : Option String
  lastName : Option String
  profileImageUrl : Option String
  role : Role
deriving DecidableEq, Repr

/-- The row that an `UpsertUser` payload materialises as. -/
def UpsertUser.toUser (u : UpsertUser) : User :=
  ⟨u.id, u.email, u.firstName, u.lastName, u.profileImageUrl, u.role⟩

/-- A row of the `submissions` table (`src/shared/schema.ts`).  `id` is the
database-generated uuid, `createdAt` the server-assigned timestamp. -/
structure Submission where
  id : String
  clientName : String
  government : String
  atmCode : String
  serviceType : ServiceType
  agentId : String
  createdAt : Nat
deriving DecidableEq, Repr

/-- JavaScript truthiness of a nullable string: `undefined`, `null` and `""`
are falsy, every other string truthy. -/
def jsTruthy : Option String → Bool
  | none => false
  | some s => !(s == "")

/-- JavaScript `a || b` on nullable strings. -/
def jsOr (a b : Option String) : Option String :=
  if jsTruthy a then a else b

/-- JavaScript `a || dflt` with a plain-string default. -/
def jsOrD (a : Option String) (dflt : String) : String :=
  if jsTruthy a then a.getD dflt else dflt

/-- `DatabaseStorage.getUser` (`src/server/storage.ts`):
`db.select().from(users).where(eq(users.id, id))`, first row or `undefined`. -/
def getUser (dbase : List User) (uid : String) : Option User :=
  dbase.find? (fun w => w.id == uid)

/-- `DatabaseStorage.upsertUser` (`src/server/storage.ts`):
`insert(users).values(userData).onConflictDoUpdate({target: users.id,
set: {...userData, updatedAt: new Date()}}).returning()`.
On id conflict every supplied field, `role` included, is written into the
stored row; otherwise the row is inserted.  Returns the new table and the
returned row. -/
def upsertUser (dbase : List User) (u : UpsertUser) : List User × User :=
  if dbase.any (fun w => w.id == u.id) then
    (dbase.map (fun w => if w.id == u.id then u.toUser else w), u.toUser)
  else
    (dbase ++ [u.toUser], u.toUser)

/-- `DatabaseStorage.updateUserRole` (`src/server/storage.ts`):
`update(users).set({role, updatedAt}).where(eq(users.email, email)).returning()`. -/
def updateUserRole (dbase : List User) (email : String) (r : Role) :
    List User × Option User :=
  let db2 := dbase.map (fun w => if w.email == email then { w with role := r } else w)
  (db2, db2.find? (fun w => w.email == email))

/-- The verified identity Supabase returns for a valid token
(`data.user` in `supabase.auth.getUser(token)`). -/
structure ProviderUser where
  id : String
  email : Option String
  metaFirstName : Option String
  metaLastName : Option String
  metaName : Option String
  avatarUrl : Option String
deriving DecidableEq, Repr

/-- JavaScript `str.split(' ')`: the fragments of the string between single
space characters. -/
def splitOnSpace (s : String) : List String :=
  (s.toList.splitOn ' ').map (fun l => String.mk l)

/-- `user_metadata?.name?.split(' ')[0]` — head word of the full name. -/
def metaNameHead (metaName : Option String) : Option String :=
  metaName.map (fun s => (splitOnSpace s).headD "")

/-- `user_metadata?.name?.split(' ').slice(1).join(' ')` — the remaining words. -/
def metaNameTail (metaName : Option String) : Option String :=
  metaName.map (fun s => String.intercalate " " ((splitOnSpace s).drop 1))

/-- The `req.user` object attached by the middleware. -/
structure CtxUser where
  id : String
  email : String
  firstName : Option String
  lastName : Option String
  role : Role
deriving DecidableEq, Repr

/-- `dbUser.firstName || undefined` — empty string collapses to `undefined`. -/
def undefIfFalsy (a : Option String) : Option String :=
  if jsTruthy a then a else none

/-- Outcome of the `authenticateToken` middleware: either a short-circuit
HTTP response, or `next()` with the (possibly updated) users table and the
attached `req.user`. -/
inductive AuthOutcome
  | respond (status : Nat) (error : String)
  | proceed (dbOut : List User) (ctx : CtxUser)
deriving DecidableEq, Repr

/-- `authHeader && authHeader.split(' ')[1]` — token extraction. -/
def extractToken (authHeader : Option String) : Option String :=
  authHeader.bind (fun h => ((splitOnSpace h).drop 1).head?)

/-- The `upsertUser` payload built for a brand-new user
(`role: 'agent'  // Default role for new users`). -/
def newUserPayload (pu : ProviderUser) : UpsertUser :=
  { id := pu.id
    email := pu.email.getD ""
    firstName := some (jsOrD (jsOr pu.metaFirstName (metaNameHead pu.metaName)) "")
    lastName := some (jsOrD (jsOr pu.metaLastName (metaNameTail pu.metaName)) "")
    profileImageUrl := pu.avatarUrl
    role := Role.agent }

/-- The `upsertUser` payload built for an existing user: display metadata is
refreshed, `role: dbUser.role  // Preserve existing role`. -/
def refreshUserPayload (pu : ProviderUser) (dbUser : User) : UpsertUser :=
  { id := pu.id
    email := pu.email.getD ""
    firstName := some (jsOrD (jsOr (jsOr pu.metaFirstName (metaNameHead pu.metaName))
      dbUser.firstName) "")
    lastName := some (jsOrD (jsOr (jsOr pu.metaLastName (metaNameTail pu.metaName))
      dbUser.lastName) "")
    profileImageUrl := jsOr pu.avatarUrl dbUser.profileImageUrl
    role := dbUser.role }

/-- `req.user = {id, email, firstName || undefined, lastName || undefined, role}`. -/
def ctxOf (w : User) : CtxUser :=
  ⟨w.id, w.email, undefIfFalsy w.firstName, undefIfFalsy w.lastName, w.role⟩

/-- The fallback `dbUser` object built from Supabase data alone when the
database throws (`role: 'agent'  // Default role when database is unavailable`). -/
def fallbackUser (pu : ProviderUser) : User :=
  { id := pu.id
    email := pu.email.getD ""
    firstName := some (jsOrD (jsOr pu.metaFirstName (metaNameHead pu.metaName)) "")
    lastName := some (jsOrD (jsOr pu.metaLastName (metaNameTail pu.metaName)) "")
    profileImageUrl := none
    role := Role.agent }

/-- `authenticateToken` — the variant at the top of `src/server/auth.ts`.
`providerResult` is the outcome of `supabase.auth.getUser(token)`
(`Except` error = `error || !data.user`).  `fetchOk` (resp. `writeOk`)
states whether `storage.getUser` (resp. the subsequent `storage.upsertUser`)
succeeds; when either throws, the `catch` block serves the request with a
fallback non-persisted identity of role `agent`. -/
def authenticateToken (authHeader : Option String)
    (providerResult : Except String ProviderUser)
    (fetchOk writeOk : Bool) (dbase : List User) : AuthOutcome :=
  match extractToken authHeader with
  | none => AuthOutcome.respond 401 "Access token required"
  | some _ =>
    match providerResult with
    | Except.error _ => AuthOutcome.respond 401 "Invalid token"
    | Except.ok pu =>
      if fetchOk then
        match getUser dbase pu.id with
        | none =>
          if writeOk then
            let res := upsertUser dbase (newUserPayload pu)
            AuthOutcome.proceed res.1 (ctxOf res.2)
          else
            AuthOutcome.proceed dbase (ctxOf (fallbackUser pu))
        | some dbUser =>
          if writeOk then
            let res := upsertUser dbase (refreshUserPayload pu dbUser)
            AuthOutcome.proceed res.1 (ctxOf res.2)
          else
            AuthOutcome.proceed dbase (ctxOf (fallbackUser pu))
      else
        AuthOutcome.proceed dbase (ctxOf (fallbackUser pu))

/-- `authenticateToken` — the timeout variant appended in `src/server/auth.ts`
(and the `Promise.race` version): a database failure during user fetch or
creation yields `503 Service temporarily unavailable`; an existing user is
attached without any upsert. -/
def authenticateTokenTimeout (authHeader : Option String)
    (providerResult : Except String ProviderUser)
    (fetchOk writeOk : Bool) (dbase : List User) : AuthOutcome :=
  match extractToken authHeader with
  | none => AuthOutcome.respond 401 "Access token required"
  | some _ =>
    match providerResult with
    | Except.error _ => AuthOutcome.respond 401 "Invalid token"
    | Except.ok pu =>
      if !fetchOk then
        AuthOutcome.respond 503 "Service temporarily unavailable"
      else
        match getUser dbase pu.id with
        | none =>
          if !writeOk then
            AuthOutcome.respond 503 "Service temporarily unavailable"
          else
            let res := upsertUser dbase (newUserPayload pu)
            AuthOutcome.proceed res.1 (ctxOf res.2)
        | some dbUser =>
          AuthOutcome.proceed dbase (ctxOf dbUser)

/-- `requireManager` (`src/server/auth.ts`): `some (status, message)` is a
short-circuit response, `none` is `next()`. -/
def requireManager (ctx : Option CtxUser) : Option (Nat × String) :=
  match ctx with
  | none => some (401, "Not authenticated")
  | some u => if u.role ≠ Role.manager then some (403, "Manager role required") else none

/-! ## Submission service (`DatabaseStorage`, `src/server/storage.ts`) -/

/-- Descending insertion of a submission into a list already ordered by
`createdAt` descending — the embedding of SQL `orderBy(desc(createdAt))`. -/
def insertDesc (s : Submission) : List Submission → List Submission
  | [] => [s]
  | t :: ts => if t.createdAt ≤ s.createdAt then s :: t :: ts else t :: insertDesc s ts

/-- Sort a submission list by `createdAt` descending
(`orderBy(desc(submissions.createdAt))`). -/
def sortByCreatedAtDesc : List Submission → List Submission
  | [] => []
  | s :: ss => insertDesc s (sortByCreatedAtDesc ss)

/-- `DatabaseStorage.createSubmission`:
`insert(submissions).values(submissionData).returning()`; the database
generates `id` (`gen_random_uuid`) and `createdAt` (`defaultNow`), here
supplied as `freshId` / `now`. -/
def createSubmission (dbase : List Submission)
    (clientName government atmCode : String) (serviceType : ServiceType)
    (agentId : String) (freshId : String) (now : Nat) :
    List Submission × Submission :=
  let row : Submission := ⟨freshId, clientName, government, atmCode, serviceType, agentId, now⟩
  (dbase ++ [row], row)

/-- `DatabaseStorage.getSubmissionsByAgent`:
`select().from(submissions).where(eq(agentId, agentId)).orderBy(desc(createdAt))`. -/
def getSubmissionsByAgent (dbase : List Submission) (aid : String) : List Submission :=
  sortByCreatedAtDesc (dbase.filter (fun s => s.agentId == aid))

/-- `row.firstName && row.lastName ? \x7bfirstName\x7d \x7blastName\x7d.trim()
: row.firstName || row.lastName || 'Unknown Agent'` from
`DatabaseStorage.getAllSubmissions`. -/
def agentNameOf (f l : Option String) : String :=
  if jsTruthy f && jsTruthy l then ((f.getD "") ++ " " ++ (l.getD "")).trim
  else if jsTruthy f then f.getD ""
  else if jsTruthy l then l.getD ""
  else "Unknown Agent"

/-- A row of the `getAllSubmissions` result: the submission columns, the
left-joined `users.firstName`/`users.lastName`, and the computed `agentName`. -/
structure JoinedSubmission where
  id : String
  clientName : String
  government : String
  atmCode : String
  serviceType : ServiceType
  agentId : String
  createdAt : Nat
  firstName : Option String
  lastName : Option String
  agentName : String
deriving DecidableEq, Repr

/-- The left-join + name computation applied to one submission row. -/
def joinRow (usersDb : List User) (s : Submission) : JoinedSubmission :=
  let u := usersDb.find? (fun w => w.id == s.agentId)
  let f := u.bind (fun w => w.firstName)
  let l := u.bind (fun w => w.lastName)
  ⟨s.id, s.clientName, s.government, s.atmCode, s.serviceType, s.agentId, s.createdAt,
    f, l, agentNameOf f l⟩

/-- `DatabaseStorage.getAllSubmissions`: select all submissions
`leftJoin(users, eq(submissions.agentId, users.id))`, ordered by
`createdAt` descending, then map each row to carry `agentName`. -/
def getAllSubmissions (dbase : List Submission) (usersDb : List User) :
    List JoinedSubmission :=
  (sortByCreatedAtDesc dbase).map (joinRow usersDb)

/-- The result record of `DatabaseStorage.getSubmissionStats`. -/
structure Stats where
  total : Nat
  feeding : Nat
  maintenance : Nat
  todayCount : Nat
deriving DecidableEq, Repr

/-- `DatabaseStorage.getSubmissionStats`: load all submissions, count them,
count the `feeding` and `maintenance` rows, and the rows with
`createdAt >= today` (midnight of the current day, here `todayStart`). -/
def getSubmissionStats (dbase : List Submission) (todayStart : Nat) : Stats :=
  { total := dbase.length
    feeding := (dbase.filter (fun s => s.serviceType == ServiceType.feeding)).length
    maintenance := (dbase.filter (fun s => s.serviceType == ServiceType.maintenance)).length
    todayCount := (dbase.filter (fun s => todayStart ≤ s.createdAt)).length }

/-- `DatabaseStorage.getActiveAgentsCount`: count of users with role `agent`. -/
def getActiveAgentsCount (usersDb : List User) : Nat :=
  (usersDb.filter (fun w => w.role == Role.agent)).length

/-! ## zod insert schema (`insertSubmissionSchema`, `src/shared/schema.ts`) -/

/-- A JSON value, as far as the verified routes need one. -/
inductive Json
  | str (s : String)
  | num (n : Int)
  | bool (b : Bool)
  | null
deriving DecidableEq, Repr

/-- A JSON object body: association list of fields. -/
abbrev Body := List (String × Json)

/-- First value bound to key `k` in a JSON object. -/
def lookupField (b : Body) (k : String) : Option Json :=
  (b.find? (fun p => p.1 == k)).map (fun p => p.2)

/-- zod validation of one required string column
(`createInsertSchema` maps a `notNull` `text`/`varchar` column to a
required `z.string()` — any string, the empty one included). -/
def parseStringField (b : Body) (k : String) : Except (String × String) String :=
  match lookupField b k with
  | none => Except.error (k, "Required")
  | some (Json.str s) => Except.ok s
  | some _ => Except.error (k, "Expected string")

/-- zod validation of the `serviceType` column
(`createInsertSchema` maps the enum `varchar` to
`z.enum(["feeding", "maintenance"])`). -/
def parseServiceType (b : Body) : Except (String × String) ServiceType :=
  match lookupField b "serviceType" with
  | none => Except.error ("serviceType", "Required")
  | some (Json.str "feeding") => Except.ok ServiceType.feeding
  | some (Json.str "maintenance") => Except.ok ServiceType.maintenance
  | some _ => Except.error ("serviceType", "Invalid enum value")

/-- The parsed output of `insertSubmissionSchema` — exactly the four picked
columns; unknown keys of the body are stripped by zod. -/
structure InsertSubmission where
  clientName : String
  government : String
  atmCode : String
  serviceType : ServiceType
deriving DecidableEq, Repr

/-- The issues of one field validation, as a list. -/
def issuesOf {α : Type} (r : Except (String × String) α) : List (String × String) :=
  match r with
  | Except.ok _ => []
  | Except.error e => [e]

/-- `insertSubmissionSchema.parse(req.body)`: validate the four picked
columns, collecting every field-level issue (`ZodError.errors`); on success
return the stripped payload. -/
def parseInsertSubmission (b : Body) :
    Except (List (String × String)) InsertSubmission :=
  match parseStringField b "clientName", parseStringField b "government",
      parseStringField b "atmCode", parseServiceType b with
  | Except.ok c, Except.ok g, Except.ok a, Except.ok st =>
      Except.ok ⟨c, g, a, st⟩
  | rc, rg, ra, rst =>
      Except.error (issuesOf rc ++ issuesOf rg ++ issuesOf ra ++ issuesOf rst)

/-! ## Route handlers (`registerRoutes`, `src/server/routes.ts`) -/

/-- Outcome of `POST /api/submissions`: a 400 validation response with the
zod issues (no row persisted), or the insert with the stored row echoed. -/
inductive CreateOutcome
  | validationError (status : Nat) (issues : List (String × String))
  | created (dbOut : List Submission) (sub : Submission)
deriving DecidableEq, Repr

/-- The `POST /api/submissions` handler body after `authenticateToken`
attached `ctx`: parse the body with `insertSubmissionSchema`, then persist
`{...submissionData, agentId: req.user.id}`. -/
def createSubmissionRoute (ctx : CtxUser) (body : Body)
    (dbase : List Submission) (freshId : String) (now : Nat) : CreateOutcome :=
  match parseInsertSubmission body with
  | Except.error issues => CreateOutcome.validationError 400 issues
  | Except.ok d =>
      let res := createSubmission dbase d.clientName d.government d.atmCode
        d.serviceType ctx.id freshId now
      CreateOutcome.created res.1 res.2

/-- The submissions table after the `POST /api/submissions` handler: the
validation-error path throws before `storage.createSubmission` is called,
so the table is left untouched there. -/
def CreateOutcome.tableAfter (o : CreateOutcome) (dbase : List Submission) :
    List Submission :=
  match o with
  | CreateOutcome.validationError _ _ => dbase
  | CreateOutcome.created db2 _ => db2

/-- Outcome of `GET /api/submissions` (list all, manager only). -/
inductive ListAllOutcome
  | respond (status : Nat) (error : String)
  | ok (rows : List JoinedSubmission)
deriving DecidableEq, Repr

/-- The `GET /api/submissions` route after `authenticateToken`: the
`requireManager` middleware runs first and short-circuits; only then does
the handler call `storage.getAllSubmissions()`. -/
def listAllRoute (ctx : Option CtxUser) (dbase : List Submission)
    (usersDb : List User) : ListAllOutcome :=
  match requireManager ctx with
  | some (status, msg) => ListAllOutcome.respond status msg
  | none => ListAllOutcome.ok (getAllSubmissions dbase usersDb)

/-- The middlewares wired in front of a route in `registerRoutes`. -/
inductive Middleware
  | authenticate
  | managerOnly
deriving DecidableEq, Repr

/-- One `app.get`/`app.post` registration. -/
structure RouteSpec where
  method : String
  path : String
  middlewares : List Middleware
deriving DecidableEq, Repr

/-- The route registrations of `registerRoutes` (`src/server/routes.ts`), in
source order, with the middleware chains as wired there. -/
def registeredRoutes : List RouteSpec :=
  [ ⟨"GET", "/api/health", []⟩
  , ⟨"POST", "/api/init-db", []⟩
  , ⟨"GET", "/api/user/profile", [Middleware.authenticate]⟩
  , ⟨"POST", "/api/submissions", [Middleware.authenticate]⟩
  , ⟨"GET", "/api/submissions", [Middleware.authenticate, Middleware.managerOnly]⟩
  , ⟨"GET", "/api/submissions/my", [Middleware.authenticate]⟩
  , ⟨"GET", "/api/stats", [Middleware.authenticate, Middleware.managerOnly]⟩
  , ⟨"GET", "/api/user", [Middleware.authenticate]⟩
  , ⟨"POST", "/api/create-demo-user", []⟩ ]

/-- The JSON body of the `GET /api/health` handler in `src/server/routes.ts`:
`res.json({ status: 'ok', message: 'Field Agent System API' })`. -/
def healthResponseBody : Body :=
  [("status", Json.str "ok"), ("message", Json.str "Field Agent System API")]

/-- The JSON body of the `GET /api/health` handler of the standalone
deployment entry (`api` Express app in the simplified serverless entry):
status, message, ISO timestamp and environment name. -/
def healthResponseBodyStandalone (ts env : String) : Body :=
  [ ("status", Json.str "ok")
  , ("message", Json.str "ATM Service Operations Portal API")
  , ("timestamp", Json.str ts)
  , ("env", Json.str env) ]

/-! ## Helper lemmas -/

/-- Membership in an insertion step of the descending sort. -/
theorem mem_insertDesc {a s : Submission} {l : List Submission} :
    a ∈ insertDesc s l ↔ a = s ∨ a ∈ l := by
  induction l with
  | nil => simp [insertDesc]
  | cons t ts ih =>
    simp only [insertDesc]
    split
    · simp [List.mem_cons]
    · rw [List.mem_cons, ih, List.mem_cons]
      tauto

/-- Sorting by `createdAt` descending preserves membership. -/
theorem mem_sortByCreatedAtDesc {a : Submission} {l : List Submission} :
    a ∈ sortByCreatedAtDesc l ↔ a ∈ l := by
  induction l with
  | nil => simp [sortByCreatedAtDesc]
  | cons s ss ih =>
    simp only [sortByCreatedAtDesc]
    rw [mem_insertDesc, ih, List.mem_cons]

/-- Insertion keeps the descending-`createdAt` pairwise order. -/
theorem pairwise_insertDesc {s : Submission} {l : List Submission}
    (h : l.Pairwise (fun a b => b.createdAt ≤ a.createdAt)) :
    (insertDesc s l).Pairwise (fun a b => b.createdAt ≤ a.createdAt) := by
  induction l with
  | nil => simp [insertDesc]
  | cons t ts ih =>
    rw [List.pairwise_cons] at h
    obtain ⟨ht, hts⟩ := h
    by_cases hc : t.createdAt ≤ s.createdAt
    · simp only [insertDesc, if_pos hc]
      refine List.Pairwise.cons ?_ (List.pairwise_cons.2 ⟨ht, hts⟩)
      intro b hb
      rcases List.mem_cons.1 hb with rfl | hb'
      · exact hc
      · exact le_trans (ht b hb') hc
    · simp only [insertDesc, if_neg hc]
      refine List.Pairwise.cons ?_ (ih hts)
      intro b hb
      rcases mem_insertDesc.1 hb with rfl | hb'
      · omega
      · exact ht b hb'

/-- The result of the descending sort is ordered by `createdAt` descending. -/
theorem pairwise_sortByCreatedAtDesc (l : List Submission) :
    (sortByCreatedAtDesc l).Pairwise (fun a b => b.createdAt ≤ a.createdAt) := by
  induction l with
  | nil => simp [sortByCreatedAtDesc]
  | cons s ss ih => exact pairwise_insertDesc ih

/-- The returned row of `upsertUser` is always the materialised payload. -/
theorem upsertUser_snd (dbase : List User) (u : UpsertUser) :
    (upsertUser dbase u).2 = u.toUser := by
  unfold upsertUser
  split <;> rfl

/-- Looking a user up after an upsert: the stored row for `uid` is the
payload's row when the payload targets `uid`, the untouched old row
otherwise. -/
theorem getUser_upsertUser (dbase : List User) (u : UpsertUser) (uid : String)
    (w : User) (hfind : getUser dbase uid = some w) :
    getUser (upsertUser dbase u).1 uid
      = some (if w.id == u.id then u.toUser else w) := by
  unfold getUser upsertUser at *
  by_cases hany : dbase.any (fun x => x.id == u.id) = true
  · rw [if_pos hany]
    simp only [List.find?_map]
    have hp : ((fun x : User => x.id == uid) ∘
        (fun x : User => if x.id == u.id then u.toUser else x))
        = fun x : User => x.id == uid := by
      funext x
      by_cases h : x.id = u.id
      · simp [Function.comp, UpsertUser.toUser, h]
      · simp [Function.comp, UpsertUser.toUser, h]
    rw [hp, hfind]
    by_cases h : w.id = u.id
    · simp [h]
    · simp [h]
  · rw [if_neg hany]
    have hwne : (w.id == u.id) = false := by
      have hmem : w ∈ dbase := List.mem_of_find?_eq_some hfind
      by_cases h : w.id = u.id
      · exfalso
        exact hany (List.any_eq_true.2 ⟨w, hmem, by simp [h]⟩)
      · simp [h]
    rw [List.find?_append, hfind, hwne]
    rfl

/-- Users not targeted by the upsert payload keep their stored row. -/
theorem getUser_upsertUser_other (dbase : List User) (u : UpsertUser) (uid : String)
    (w : User) (hfind : getUser dbase uid = some w) (hne : w.id ≠ u.id) :
    getUser (upsertUser dbase u).1 uid = some w := by
  rw [getUser_upsertUser dbase u uid w hfind]
  simp [hne]

/-- A found user's `id` field equals the looked-up key. -/
theorem getUser_id {dbase : List User} {uid : String} {w : User}
    (hfind : getUser dbase uid = some w) : w.id = uid := by
  have := List.find?_some hfind
  simpa using this

/-- Creating a brand-new user (id not present) does not disturb the stored
row of any present user. -/
theorem getUser_after_newUser (dbase : List User) (pu : ProviderUser)
    (uid : String) (w : User) (hfind : getUser dbase uid = some w)
    (hnone : getUser dbase pu.id = none) :
    getUser (upsertUser dbase (newUserPayload pu)).1 uid = some w := by
  apply getUser_upsertUser_other _ _ _ _ hfind
  intro hid
  have hmem : w ∈ dbase := List.mem_of_find?_eq_some hfind
  have hall := List.find?_eq_none.1 hnone w hmem
  apply hall
  simp only [newUserPayload] at hid
  simp [hid]

/-- The metadata-refreshing upsert of an existing user preserves the stored
role of every present user. -/
theorem getUser_after_refresh (dbase : List User) (pu : ProviderUser)
    (dbUser : User) (uid : String) (w : User)
    (hfind : getUser dbase uid = some w)
    (hsome : getUser dbase pu.id = some dbUser) :
    ∃ w2, getUser (upsertUser dbase (refreshUserPayload pu dbUser)).1 uid = some w2
      ∧ w2.role = w.role := by
  have h := getUser_upsertUser dbase (refreshUserPayload pu dbUser) uid w hfind
  by_cases hid : w.id = (refreshUserPayload pu dbUser).id
  · have hpuid : (refreshUserPayload pu dbUser).id = pu.id := rfl
    have huid : uid = pu.id := by rw [← getUser_id hfind, hid, hpuid]
    have hdw : dbUser = w := by
      rw [huid] at hfind
      rw [hfind] at hsome
      exact (Option.some.inj hsome).symm
    refine ⟨(refreshUserPayload pu dbUser).toUser, ?_, ?_⟩
    · rw [h, if_pos (by simp [hid])]
    · simp [UpsertUser.toUser, refreshUserPayload, hdw]
  · exact ⟨w, by rw [h, if_neg (by simp [hid])], rfl⟩

/-- Exhaustive characterisation of the `next()` outcomes of the fallback
variant of `authenticateToken`: a non-persisted fallback identity (database
failure), a fresh default-role creation, or a metadata refresh of the
existing user. -/
theorem authenticateToken_proceed_cases
    (authHeader : Option String) (pu : ProviderUser) (fetchOk writeOk : Bool)
    (dbase db2 : List User) (ctx : CtxUser)
    (hrun : authenticateToken authHeader (Except.ok pu) fetchOk writeOk dbase
      = AuthOutcome.proceed db2 ctx) :
    ((fetchOk = false ∨ writeOk = false) ∧ db2 = dbase ∧ ctx = ctxOf (fallbackUser pu))
    ∨ (fetchOk = true ∧ writeOk = true ∧ getUser dbase pu.id = none ∧
        db2 = (upsertUser dbase (newUserPayload pu)).1 ∧
        ctx = ctxOf (newUserPayload pu).toUser)
    ∨ (∃ dbUser, fetchOk = true ∧ writeOk = true ∧
        getUser dbase pu.id = some dbUser ∧
        db2 = (upsertUser dbase (refreshUserPayload pu dbUser)).1 ∧
        ctx = ctxOf (refreshUserPayload pu dbUser).toUser) := by
  cases htok : extractToken authHeader with
  | none =>
    rw [authenticateToken.eq_def] at hrun
    rw [htok] at hrun
    simp at hrun
  | some t =>
    simp only [authenticateToken, htok] at hrun
    by_cases hf : fetchOk = true
    · rw [if_pos hf] at hrun
      cases hdb : getUser dbase pu.id with
      | none =>
        rw [hdb] at hrun
        dsimp only at hrun
        by_cases hw : writeOk = true
        · rw [if_pos hw] at hrun
          injection hrun with h1 h2
          right; left
          exact ⟨hf, hw, rfl, h1.symm, by rw [← h2, upsertUser_snd]⟩
        · rw [if_neg hw] at hrun
          injection hrun with h1 h2
          left
          exact ⟨Or.inr (by simpa using hw), h1.symm, h2.symm⟩
      | some dbUser =>
        rw [hdb] at hrun
        dsimp only at hrun
        by_cases hw : writeOk = true
        · rw [if_pos hw] at hrun
          injection hrun with h1 h2
          right; right
          exact ⟨dbUser, hf, hw, rfl, h1.symm, by rw [← h2, upsertUser_snd]⟩
        · rw [if_neg hw] at hrun
          injection hrun with h1 h2
          left
          exact ⟨Or.inr (by simpa using hw), h1.symm, h2.symm⟩
    · rw [if_neg hf] at hrun
      injection hrun with h1 h2
      left
      exact ⟨Or.inl (by simpa using hf), h1.symm, h2.symm⟩

/-- Exhaustive characterisation of the `next()` outcomes of the timeout
variant: either a fresh default-role creation, or the existing user is
attached untouched (no upsert on that path). -/
theorem authenticateTokenTimeout_proceed_cases
    (authHeader : Option String) (pu : ProviderUser) (fetchOk writeOk : Bool)
    (dbase db2 : List User) (ctx : CtxUser)
    (hrun : authenticateTokenTimeout authHeader (Except.ok pu) fetchOk writeOk dbase
      = AuthOutcome.proceed db2 ctx) :
    (fetchOk = true ∧ writeOk = true ∧ getUser dbase pu.id = none ∧
        db2 = (upsertUser dbase (newUserPayload pu)).1 ∧
        ctx = ctxOf (newUserPayload pu).toUser)
    ∨ (∃ dbUser, fetchOk = true ∧ getUser dbase pu.id = some dbUser ∧
        db2 = dbase ∧ ctx = ctxOf dbUser) := by
  cases htok : extractToken authHeader with
  | none =>
    rw [authenticateTokenTimeout.eq_def] at hrun
    rw [htok] at hrun
    simp at hrun
  | some t =>
    simp only [authenticateTokenTimeout, htok] at hrun
    by_cases hf : fetchOk = true
    · rw [hf] at hrun
      simp only [Bool.not_true, Bool.false_eq_true, if_false] at hrun
      cases hdb : getUser dbase pu.id with
      | none =>
        rw [hdb] at hrun
        dsimp only at hrun
        by_cases hw : writeOk = true
        · rw [hw] at hrun
          simp only [Bool.not_true, Bool.false_eq_true, if_false] at hrun
          injection hrun with h1 h2
          left
          exact ⟨hf, hw, rfl, h1.symm, by rw [← h2, upsertUser_snd]⟩
        · rw [Bool.not_eq_true] at hw
          rw [hw] at hrun
          simp at hrun
      | some dbUser =>
        rw [hdb] at hrun
        dsimp only at hrun
        injection hrun with h1 h2
        right
        exact ⟨dbUser, hf, rfl, h1.symm, h2.symm⟩
    · rw [Bool.not_eq_true] at hf
      rw [hf] at hrun
      simp at hrun

/-! ## Claim theorems -/

/-- Every submission is counted by exactly one of the two `serviceType`
filters. -/
theorem length_filter_serviceType (l : List Submission) :
    l.length = (l.filter (fun s => s.serviceType == ServiceType.feeding)).length
      + (l.filter (fun s => s.serviceType == ServiceType.maintenance)).length := by
  induction l with
  | nil => rfl
  | cons s ss ih =>
    cases h : s.serviceType <;> simp [List.filter_cons, h, ih] <;> omega

/-- C6: for every set of stored submissions, the statistics result satisfies
`total = feeding + maintenance`, because `serviceType` is a closed two-value
enumeration covering all rows. -/
theorem getSubmissionStats_total_eq_feeding_add_maintenance
    (dbase : List Submission) (todayStart : Nat) :
    (getSubmissionStats dbase todayStart).total
      = (getSubmissionStats dbase todayStart).feeding
        + (getSubmissionStats dbase todayStart).maintenance := by
  simpa [getSubmissionStats] using length_filter_serviceType dbase

/-- C1: for a user already present in the directory, re-authenticating the
same external identity leaves the stored `role` unchanged in both
`authenticateToken` variants, whatever the database availability flags; and
when the directory round-trip succeeds the attached `req.user` carries the
stored role — a role set to `manager` is never reset to `agent` by a
subsequent login. -/
theorem reauth_never_resets_role
    (authHeader : Option String) (pu : ProviderUser) (fetchOk writeOk : Bool)
    (dbase : List User) (uid : String) (w : User)
    (hfind : getUser dbase uid = some w) :
    (∀ db2 ctx, authenticateToken authHeader (Except.ok pu) fetchOk writeOk dbase
        = AuthOutcome.proceed db2 ctx →
      ∃ w2, getUser db2 uid = some w2 ∧ w2.role = w.role)
    ∧ (∀ db2 ctx, authenticateTokenTimeout authHeader (Except.ok pu) fetchOk writeOk dbase
        = AuthOutcome.proceed db2 ctx →
      ∃ w2, getUser db2 uid = some w2 ∧ w2.role = w.role)
    ∧ (pu.id = uid →
       ∀ db2 ctx, authenticateToken authHeader (Except.ok pu) true true dbase
          = AuthOutcome.proceed db2 ctx → ctx.role = w.role)
    ∧ (pu.id = uid →
       ∀ db2 ctx, authenticateTokenTimeout authHeader (Except.ok pu) true true dbase
          = AuthOutcome.proceed db2 ctx → ctx.role = w.role) := by
  refine ⟨?_, ?_, ?_, ?_⟩
  · intro db2 ctx hrun
    rcases authenticateToken_proceed_cases _ _ _ _ _ _ _ hrun with
      ⟨_, hdb2, _⟩ | ⟨_, _, hnone, hdb2, _⟩ | ⟨dbUser, _, _, hsome, hdb2, _⟩
    · exact ⟨w, by rw [hdb2]; exact hfind, rfl⟩
    · exact ⟨w, by rw [hdb2]; exact getUser_after_newUser dbase pu uid w hfind hnone, rfl⟩
    · obtain ⟨w2, hg, hr⟩ := getUser_after_refresh dbase pu dbUser uid w hfind hsome
      exact ⟨w2, by rw [hdb2]; exact hg, hr⟩
  · intro db2 ctx hrun
    rcases authenticateTokenTimeout_proceed_cases _ _ _ _ _ _ _ hrun with
      ⟨_, _, hnone, hdb2, _⟩ | ⟨dbUser, _, hsome, hdb2, _⟩
    · exact ⟨w, by rw [hdb2]; exact getUser_after_newUser dbase pu uid w hfind hnone, rfl⟩
    · exact ⟨w, by rw [hdb2]; exact hfind, rfl⟩
  · intro hpu db2 ctx hrun
    rcases authenticateToken_proceed_cases _ _ _ _ _ _ _ hrun with
      ⟨hflag, _, _⟩ | ⟨_, _, hnone, _, _⟩ | ⟨dbUser, _, _, hsome, _, hctx⟩
    · rcases hflag with h | h <;> exact absurd h (by simp)
    · rw [hpu, hfind] at hnone
      simp at hnone
    · rw [hpu, hfind] at hsome
      have hdw : dbUser = w := (Option.some.inj hsome).symm
      rw [hctx, hdw]
      rfl
  · intro hpu db2 ctx hrun
    rcases authenticateTokenTimeout_proceed_cases _ _ _ _ _ _ _ hrun with
      ⟨_, _, hnone, _, _⟩ | ⟨dbUser, _, hsome, _, hctx⟩
    · rw [hpu, hfind] at hnone
      simp at hnone
    · rw [hpu, hfind] at hsome
      have hdw : dbUser = w := (Option.some.inj hsome).symm
      rw [hctx, hdw]
      rfl

/-- Witness for C1: a stored manager re-authenticates (fallback variant,
database reachable) and the stored role is still `manager`. -/
theorem reauth_never_resets_role_witness :
    ∃ w2, getUser [(⟨"u1", "m@example.org", some "Mona", some "Mgr", none,
        Role.manager⟩ : User)] "u1" = some w2 ∧ w2.role = Role.manager := by
  have h := reauth_never_resets_role (some "Bearer tok")
      ⟨"u1", some "m@example.org", none, none, none, none⟩ true true
      [⟨"u1", "m@example.org", some "Mona", some "Mgr", none, Role.manager⟩]
      "u1" ⟨"u1", "m@example.org", some "Mona", some "Mgr", none, Role.manager⟩
      (by decide)
  exact h.1 [⟨"u1", "m@example.org", some "Mona", some "Mgr", none, Role.manager⟩]
    ⟨"u1", "m@example.org", some "Mona", some "Mgr", Role.manager⟩ (by decide)

/-- C8: `upsertUser` for an id that already exists writes every supplied
field into the stored row — `role` included, since it is part of the
conflict-update set.  An upsert supplying `role = agent` for an existing
manager resets that user to `agent`. -/
theorem upsertUser_writes_all_fields_including_role
    (dbase : List User) (u : UpsertUser) (w : User)
    (hfind : getUser dbase u.id = some w) :
    (upsertUser dbase u).2 = u.toUser
    ∧ getUser (upsertUser dbase u).1 u.id = some u.toUser
    ∧ (u.role = Role.agent → w.role = Role.manager →
        ∃ w2, getUser (upsertUser dbase u).1 u.id = some w2
          ∧ w2.role = Role.agent) := by
  have hid : w.id = u.id := getUser_id hfind
  have h2 := getUser_upsertUser dbase u u.id w hfind
  rw [if_pos (by simp [hid])] at h2
  refine ⟨upsertUser_snd dbase u, h2, ?_⟩
  intro hu _hw
  exact ⟨u.toUser, h2, by simp [UpsertUser.toUser, hu]⟩

/-- Witness for C8: a concrete stored manager is reset to `agent` by an
upsert that supplies `role = agent` for the same id. -/
theorem upsertUser_writes_all_fields_including_role_witness :
    ∃ w2, getUser (upsertUser
        [⟨"u1", "m@example.com", some "Mona", some "Mgr", none, Role.manager⟩]
        ⟨"u1", "m@example.com", some "Mona", some "Mgr", none, Role.agent⟩).1 "u1"
      = some w2 ∧ w2.role = Role.agent :=
  (upsertUser_writes_all_fields_including_role
      [⟨"u1", "m@example.com", some "Mona", some "Mgr", none, Role.manager⟩]
      ⟨"u1", "m@example.com", some "Mona", some "Mgr", none, Role.agent⟩
      ⟨"u1", "m@example.com", some "Mona", some "Mgr", none, Role.manager⟩
      (by decide)).2.2 rfl rfl

/-- Counterexample to C2: under the fallback variant of `authenticateToken`
(the one at the top of `src/server/auth.ts`), a request whose bearer token
verifies but whose directory lookup fails is not answered 503 — it is
served, with a non-persisted fallback identity carrying role `agent`. -/
theorem authenticateToken_directory_failure_served_with_agent :
    authenticateToken (some "Bearer tok")
      (Except.ok ⟨"u9", some "a@example.org", none, none, none, none⟩)
      false true []
      = AuthOutcome.proceed [] ⟨"u9", "a@example.org", none, none, Role.agent⟩ := by
  decide

/-- C2 amended: in the timeout variant of `authenticateToken`, a request
whose bearer token verifies but whose directory lookup or creation fails is
answered `503 Service temporarily unavailable` and is never served; the
fallback variant instead serves such a request with a non-persisted
default-role identity. -/
theorem authenticateTokenTimeout_503_on_directory_failure
    (authHeader : Option String) (t : String) (pu : ProviderUser)
    (fetchOk writeOk : Bool) (dbase : List User)
    (htok : extractToken authHeader = some t)
    (hfail : fetchOk = false ∨ (getUser dbase pu.id = none ∧ writeOk = false)) :
    authenticateTokenTimeout authHeader (Except.ok pu) fetchOk writeOk dbase
      = AuthOutcome.respond 503 "Service temporarily unavailable" := by
  simp only [authenticateTokenTimeout, htok]
  rcases hfail with hf | ⟨hnone, hw⟩
  · rw [hf]
    simp
  · cases hf : fetchOk with
    | false => simp
    | true =>
      simp only [Bool.not_true, Bool.false_eq_true, if_false]
      rw [hnone]
      dsimp only
      rw [hw]
      simp

/-- Witness for C2's amended theorem: a concrete verified token whose user
fetch times out is answered 503 by the timeout variant. -/
theorem authenticateTokenTimeout_503_on_directory_failure_witness :
    authenticateTokenTimeout (some "Bearer tok")
      (Except.ok ⟨"u9", some "a@example.org", none, none, none, none⟩)
      false true []
      = AuthOutcome.respond 503 "Service temporarily unavailable" :=
  authenticateTokenTimeout_503_on_directory_failure (some "Bearer tok") "tok"
    ⟨"u9", some "a@example.org", none, none, none, none⟩ false true []
    (by decide) (Or.inl rfl)

/-- C3: for every caller whose attached role is `agent`, the list-all route
short-circuits in `requireManager` with 403 and no submission rows: the
handler body (`storage.getAllSubmissions`) is never reached. -/
theorem listAllRoute_agent_gets_403
    (ctx : CtxUser) (dbase : List Submission) (usersDb : List User)
    (hrole : ctx.role = Role.agent) :
    listAllRoute (some ctx) dbase usersDb
      = ListAllOutcome.respond 403 "Manager role required"
    ∧ ∀ rows, listAllRoute (some ctx) dbase usersDb ≠ ListAllOutcome.ok rows := by
  have h : listAllRoute (some ctx) dbase usersDb
      = ListAllOutcome.respond 403 "Manager role required" := by
    unfold listAllRoute requireManager
    dsimp only
    rw [hrole]
    simp
  exact ⟨h, fun rows hk => by rw [h] at hk; cases hk⟩

/-- Witness for C3: a concrete agent calling list-all receives 403. -/
theorem listAllRoute_agent_gets_403_witness :
    listAllRoute (some ⟨"a1", "a@example.org", none, none, Role.agent⟩)
      [⟨"s1", "Acme", "cairo", "ATM-001", ServiceType.feeding, "a1", 3⟩] []
      = ListAllOutcome.respond 403 "Manager role required" :=
  (listAllRoute_agent_gets_403 ⟨"a1", "a@example.org", none, none, Role.agent⟩
    [⟨"s1", "Acme", "cairo", "ATM-001", ServiceType.feeding, "a1", 3⟩] [] rfl).1

/-- A required string column whose body field is absent or not a string
fails its zod check with an issue naming the field. -/
theorem parseStringField_error (b : Body) (k : String)
    (h : ∀ s, lookupField b k ≠ some (Json.str s)) :
    ∃ msg, parseStringField b k = Except.error (k, msg) := by
  unfold parseStringField
  split
  · exact ⟨"Required", rfl⟩
  · next s heq => exact absurd heq (h s)
  · exact ⟨"Expected string", rfl⟩

/-- A `serviceType` body field outside the two-value enum fails its zod
check with an issue naming `serviceType`. -/
theorem parseServiceType_error (b : Body)
    (h1 : lookupField b "serviceType" ≠ some (Json.str "feeding"))
    (h2 : lookupField b "serviceType" ≠ some (Json.str "maintenance")) :
    ∃ msg, parseServiceType b = Except.error ("serviceType", msg) := by
  unfold parseServiceType
  split
  · exact ⟨"Required", rfl⟩
  · next heq => exact absurd heq h1
  · next heq => exact absurd heq h2
  · exact ⟨"Invalid enum value", rfl⟩

/-- A failing `clientName` check makes the whole schema parse fail with an
issue list containing a `clientName` issue. -/
theorem parseInsertSubmission_error_clientName (b : Body)
    (h : ∀ s, lookupField b "clientName" ≠ some (Json.str s)) :
    ∃ issues, parseInsertSubmission b = Except.error issues
      ∧ ∃ msg, ("clientName", msg) ∈ issues := by
  obtain ⟨msg, hmsg⟩ := parseStringField_error b "clientName" h
  unfold parseInsertSubmission
  rw [hmsg]
  exact ⟨_, rfl, msg, by simp [issuesOf]⟩

/-- A failing `government` check makes the whole schema parse fail with an
issue list containing a `government` issue. -/
theorem parseInsertSubmission_error_government (b : Body)
    (h : ∀ s, lookupField b "government" ≠ some (Json.str s)) :
    ∃ issues, parseInsertSubmission b = Except.error issues
      ∧ ∃ msg, ("government", msg) ∈ issues := by
  obtain ⟨msg, hmsg⟩ := parseStringField_error b "government" h
  unfold parseInsertSubmission
  rw [hmsg]
  cases hc : parseStringField b "clientName" with
  | error e =>
    cases ha : parseStringField b "atmCode" with
    | error e3 =>
      cases hst : parseServiceType b with
      | error e4 => exact ⟨_, rfl, msg, by simp [issuesOf]⟩
      | ok st => exact ⟨_, rfl, msg, by simp [issuesOf]⟩
    | ok a =>
      cases hst : parseServiceType b with
      | error e4 => exact ⟨_, rfl, msg, by simp [issuesOf]⟩
      | ok st => exact ⟨_, rfl, msg, by simp [issuesOf]⟩
  | ok c =>
    cases ha : parseStringField b "atmCode" with
    | error e3 =>
      cases hst : parseServiceType b with
      | error e4 => exact ⟨_, rfl, msg, by simp [issuesOf]⟩
      | ok st => exact ⟨_, rfl, msg, by simp [issuesOf]⟩
    | ok a =>
      cases hst : parseServiceType b with
      | error e4 => exact ⟨_, rfl, msg, by simp [issuesOf]⟩
      | ok st => exact ⟨_, rfl, msg, by simp [issuesOf]⟩

/-- A failing `atmCode` check makes the whole schema parse fail with an
issue list containing an `atmCode` issue. -/
theorem parseInsertSubmission_error_atmCode (b : Body)
    (h : ∀ s, lookupField b "atmCode" ≠ some (Json.str s)) :
    ∃ issues, parseInsertSubmission b = Except.error issues
      ∧ ∃ msg, ("atmCode", msg) ∈ issues := by
  obtain ⟨msg, hmsg⟩ := parseStringField_error b "atmCode" h
  unfold parseInsertSubmission
  rw [hmsg]
  cases hc : parseStringField b "clientName" with
  | error e =>
    cases hg : parseStringField b "government" with
    | error e2 =>
      cases hst : parseServiceType b with
      | error e4 => exact ⟨_, rfl, msg, by simp [issuesOf]⟩
      | ok st => exact ⟨_, rfl, msg, by simp [issuesOf]⟩
    | ok g =>
      cases hst : parseServiceType b with
      | error e4 => exact ⟨_, rfl, msg, by simp [issuesOf]⟩
      | ok st => exact ⟨_, rfl, msg, by simp [issuesOf]⟩
  | ok c =>
    cases hg : parseStringField b "government" with
    | error e2 =>
      cases hst : parseServiceType b with
      | error e4 => exact ⟨_, rfl, msg, by simp [issuesOf]⟩
      | ok st => exact ⟨_, rfl, msg, by simp [issuesOf]⟩
    | ok g =>
      cases hst : parseServiceType b with
      | error e4 => exact ⟨_, rfl, msg, by simp [issuesOf]⟩
      | ok st => exact ⟨_, rfl, msg, by simp [issuesOf]⟩

/-- A failing `serviceType` check makes the whole schema parse fail with an
issue list containing a `serviceType` issue. -/
theorem parseInsertSubmission_error_serviceType (b : Body)
    (h1 : lookupField b "serviceType" ≠ some (Json.str "feeding"))
    (h2 : lookupField b "serviceType" ≠ some (Json.str "maintenance")) :
    ∃ issues, parseInsertSubmission b = Except.error issues
      ∧ ∃ msg, ("serviceType", msg) ∈ issues := by
  obtain ⟨msg, hmsg⟩ := parseServiceType_error b h1 h2
  unfold parseInsertSubmission
  rw [hmsg]
  cases hc : parseStringField b "clientName" with
  | error e =>
    cases hg : parseStringField b "government" with
    | error e2 =>
      cases ha : parseStringField b "atmCode" with
      | error e3 => exact ⟨_, rfl, msg, by simp [issuesOf]⟩
      | ok a => exact ⟨_, rfl, msg, by simp [issuesOf]⟩
    | ok g =>
      cases ha : parseStringField b "atmCode" with
      | error e3 => exact ⟨_, rfl, msg, by simp [issuesOf]⟩
      | ok a => exact ⟨_, rfl, msg, by simp [issuesOf]⟩
  | ok c =>
    cases hg : parseStringField b "government" with
    | error e2 =>
      cases ha : parseStringField b "atmCode" with
      | error e3 => exact ⟨_, rfl, msg, by simp [issuesOf]⟩
      | ok a => exact ⟨_, rfl, msg, by simp [issuesOf]⟩
    | ok g =>
      cases ha : parseStringField b "atmCode" with
      | error e3 => exact ⟨_, rfl, msg, by simp [issuesOf]⟩
      | ok a => exact ⟨_, rfl, msg, by simp [issuesOf]⟩

/-- Counterexample to C4: a payload whose `clientName` is the empty string
passes `insertSubmissionSchema` — the generated `z.string()` has no
non-empty check — and a row with empty `clientName` is persisted. -/
theorem create_empty_clientName_accepted :
    createSubmissionRoute ⟨"a1", "a@example.org", none, none, Role.agent⟩
      [("clientName", Json.str ""), ("government", Json.str "cairo"),
       ("atmCode", Json.str "ATM-001"), ("serviceType", Json.str "feeding")]
      [] "s1" 5
      = CreateOutcome.created
          [⟨"s1", "", "cairo", "ATM-001", ServiceType.feeding, "a1", 5⟩]
          ⟨"s1", "", "cairo", "ATM-001", ServiceType.feeding, "a1", 5⟩ := by
  decide

/-- C4 amended: `create` rejects with a 400 validation error carrying
field-level issues — and persists no row — whenever `clientName`,
`government` or `atmCode` is absent or not a string, or `serviceType` is
not one of `feeding`/`maintenance`; a present-but-empty string, however, is
accepted. -/
theorem createSubmissionRoute_rejects_missing_or_nonstring_fields
    (ctx : CtxUser) (body : Body) (dbase : List Submission)
    (freshId : String) (now : Nat) :
    ((∀ s, lookupField body "clientName" ≠ some (Json.str s)) →
      ∃ issues, createSubmissionRoute ctx body dbase freshId now
          = CreateOutcome.validationError 400 issues
        ∧ (∃ msg, ("clientName", msg) ∈ issues)
        ∧ (createSubmissionRoute ctx body dbase freshId now).tableAfter dbase = dbase)
    ∧ ((∀ s, lookupField body "government" ≠ some (Json.str s)) →
      ∃ issues, createSubmissionRoute ctx body dbase freshId now
          = CreateOutcome.validationError 400 issues
        ∧ (∃ msg, ("government", msg) ∈ issues)
        ∧ (createSubmissionRoute ctx body dbase freshId now).tableAfter dbase = dbase)
    ∧ ((∀ s, lookupField body "atmCode" ≠ some (Json.str s)) →
      ∃ issues, createSubmissionRoute ctx body dbase freshId now
          = CreateOutcome.validationError 400 issues
        ∧ (∃ msg, ("atmCode", msg) ∈ issues)
        ∧ (createSubmissionRoute ctx body dbase freshId now).tableAfter dbase = dbase)
    ∧ ((lookupField body "serviceType" ≠ some (Json.str "feeding") →
        lookupField body "serviceType" ≠ some (Json.str "maintenance") →
      ∃ issues, createSubmissionRoute ctx body dbase freshId now
          = CreateOutcome.validationError 400 issues
        ∧ (∃ msg, ("serviceType", msg) ∈ issues)
        ∧ (createSubmissionRoute ctx body dbase freshId now).tableAfter dbase = dbase)) := by
  refine ⟨?_, ?_, ?_, ?_⟩
  · intro h
    obtain ⟨issues, hparse, msg, hmem⟩ := parseInsertSubmission_error_clientName body h
    have hrun : createSubmissionRoute ctx body dbase freshId now
        = CreateOutcome.validationError 400 issues := by
      unfold createSubmissionRoute
      rw [hparse]
    exact ⟨issues, hrun, ⟨msg, hmem⟩, by rw [hrun]; rfl⟩
  · intro h
    obtain ⟨issues, hparse, msg, hmem⟩ := parseInsertSubmission_error_government body h
    have hrun : createSubmissionRoute ctx body dbase freshId now
        = CreateOutcome.validationError 400 issues := by
      unfold createSubmissionRoute
      rw [hparse]
    exact ⟨issues, hrun, ⟨msg, hmem⟩, by rw [hrun]; rfl⟩
  · intro h
    obtain ⟨issues, hparse, msg, hmem⟩ := parseInsertSubmission_error_atmCode body h
    have hrun : createSubmissionRoute ctx body dbase freshId now
        = CreateOutcome.validationError 400 issues := by
      unfold createSubmissionRoute
      rw [hparse]
    exact ⟨issues, hrun, ⟨msg, hmem⟩, by rw [hrun]; rfl⟩
  · intro h1 h2
    obtain ⟨issues, hparse, msg, hmem⟩ := parseInsertSubmission_error_serviceType body h1 h2
    have hrun : createSubmissionRoute ctx body dbase freshId now
        = CreateOutcome.validationError 400 issues := by
      unfold createSubmissionRoute
      rw [hparse]
    exact ⟨issues, hrun, ⟨msg, hmem⟩, by rw [hrun]; rfl⟩

/-- Witness for C4's amended theorem: a concrete body with no `clientName`
field is rejected 400 with an issue naming `clientName`, table untouched. -/
theorem createSubmissionRoute_rejects_missing_or_nonstring_fields_witness :
    ∃ issues, createSubmissionRoute ⟨"a1", "a@example.org", none, none, Role.agent⟩
        [("government", Json.str "cairo"), ("atmCode", Json.str "ATM-001"),
         ("serviceType", Json.str "feeding")] [] "s1" 5
        = CreateOutcome.validationError 400 issues
      ∧ (∃ msg, ("clientName", msg) ∈ issues)
      ∧ (createSubmissionRoute ⟨"a1", "a@example.org", none, none, Role.agent⟩
          [("government", Json.str "cairo"), ("atmCode", Json.str "ATM-001"),
           ("serviceType", Json.str "feeding")] [] "s1" 5).tableAfter [] = [] :=
  (createSubmissionRoute_rejects_missing_or_nonstring_fields
    ⟨"a1", "a@example.org", none, none, Role.agent⟩
    [("government", Json.str "cairo"), ("atmCode", Json.str "ATM-001"),
     ("serviceType", Json.str "feeding")] [] "s1" 5).1 (by
      intro s h
      rw [show lookupField
          [("government", Json.str "cairo"), ("atmCode", Json.str "ATM-001"),
           ("serviceType", Json.str "feeding")] "clientName" = none from by decide] at h
      exact Option.noConfusion h)

/-- C5: for every payload accepted by the schema and every authenticated
caller, `create` persists a row whose `agentId` is the caller's id and
whose payload fields are the submitted ones, and `listMine` for the same
caller includes that row. -/
theorem create_then_listMine_includes_record
    (ctx : CtxUser) (body : Body) (d : InsertSubmission)
    (dbase : List Submission) (freshId : String) (now : Nat)
    (hparse : parseInsertSubmission body = Except.ok d) :
    ∃ db2 row, createSubmissionRoute ctx body dbase freshId now
        = CreateOutcome.created db2 row
      ∧ row.agentId = ctx.id
      ∧ row.clientName = d.clientName ∧ row.government = d.government
      ∧ row.atmCode = d.atmCode ∧ row.serviceType = d.serviceType
      ∧ row ∈ getSubmissionsByAgent db2 ctx.id := by
  have hrun : createSubmissionRoute ctx body dbase freshId now
      = CreateOutcome.created
          (dbase ++ [⟨freshId, d.clientName, d.government, d.atmCode,
            d.serviceType, ctx.id, now⟩])
          ⟨freshId, d.clientName, d.government, d.atmCode, d.serviceType, ctx.id, now⟩ := by
    unfold createSubmissionRoute
    rw [hparse]
    rfl
  refine ⟨_, _, hrun, rfl, rfl, rfl, rfl, rfl, ?_⟩
  unfold getSubmissionsByAgent
  rw [mem_sortByCreatedAtDesc, List.mem_filter]
  exact ⟨List.mem_append_right _ (List.mem_singleton_self _), by simp⟩

/-- Witness for C5: a concrete valid payload round-trips through create and
listMine. -/
theorem create_then_listMine_includes_record_witness :
    ∃ db2 row, createSubmissionRoute ⟨"a1", "a@example.org", none, none, Role.agent⟩
        [("clientName", Json.str "Acme"), ("government", Json.str "cairo"),
         ("atmCode", Json.str "ATM-001"), ("serviceType", Json.str "feeding")]
        [] "s1" 5
        = CreateOutcome.created db2 row
      ∧ row.agentId = "a1"
      ∧ row.clientName = "Acme" ∧ row.government = "cairo"
      ∧ row.atmCode = "ATM-001" ∧ row.serviceType = ServiceType.feeding
      ∧ row ∈ getSubmissionsByAgent db2 "a1" :=
  create_then_listMine_includes_record
    ⟨"a1", "a@example.org", none, none, Role.agent⟩
    [("clientName", Json.str "Acme"), ("government", Json.str "cairo"),
     ("atmCode", Json.str "ATM-001"), ("serviceType", Json.str "feeding")]
    ⟨"Acme", "cairo", "ATM-001", ServiceType.feeding⟩ [] "s1" 5 (by rfl)

/-- Counterexample to C7: a submission whose owning user has both name
fields empty gets `agentName = "Unknown Agent"`, not `"Unknown"`. -/
theorem getAllSubmissions_fallback_is_unknown_agent :
    ((getAllSubmissions
        [⟨"s1", "Acme", "cairo", "ATM-001", ServiceType.feeding, "u1", 3⟩]
        [⟨"u1", "a@example.org", some "", some "", none, Role.agent⟩]).map
      (fun r => r.agentName) = ["Unknown Agent"])
    ∧ ((getAllSubmissions
        [⟨"s1", "Acme", "cairo", "ATM-001", ServiceType.feeding, "u1", 3⟩]
        [⟨"u1", "a@example.org", some "", some "", none, Role.agent⟩]).map
      (fun r => r.agentName) ≠ ["Unknown"]) := by
  decide

/-- C7 amended: listAll returns exactly the stored submissions left-joined
with the owning user's name fields, ordered by `createdAt` descending; when
the owning user's name fields are both empty (or the user row is missing),
the display-name field — named `agentName` — falls back to the string
"Unknown Agent". -/
theorem getAllSubmissions_ordered_joined_fallback
    (dbase : List Submission) (usersDb : List User) :
    (getAllSubmissions dbase usersDb).Pairwise (fun a b => b.createdAt ≤ a.createdAt)
    ∧ (∀ r, r ∈ getAllSubmissions dbase usersDb ↔ ∃ s ∈ dbase, r = joinRow usersDb s)
    ∧ (∀ r ∈ getAllSubmissions dbase usersDb,
        jsTruthy r.firstName = false → jsTruthy r.lastName = false →
        r.agentName = "Unknown Agent") := by
  refine ⟨?_, ?_, ?_⟩
  · unfold getAllSubmissions
    rw [List.pairwise_map]
    exact pairwise_sortByCreatedAtDesc dbase
  · intro r
    unfold getAllSubmissions
    rw [List.mem_map]
    constructor
    · rintro ⟨s, hs, rfl⟩
      exact ⟨s, mem_sortByCreatedAtDesc.1 hs, rfl⟩
    · rintro ⟨s, hs, rfl⟩
      exact ⟨s, mem_sortByCreatedAtDesc.2 hs, rfl⟩
  · intro r hr hf hl
    unfold getAllSubmissions at hr
    rw [List.mem_map] at hr
    obtain ⟨s, _, rfl⟩ := hr
    show agentNameOf ((joinRow usersDb s).firstName) ((joinRow usersDb s).lastName)
      = "Unknown Agent"
    unfold agentNameOf
    rw [hf, hl]
    simp

/-- Witness for C7's amended theorem: a submission whose owner is missing
from the users table displays as "Unknown Agent". -/
theorem getAllSubmissions_ordered_joined_fallback_witness :
    (joinRow ([] : List User)
        ⟨"s2", "Beta", "giza", "ATM-002", ServiceType.maintenance, "u2", 7⟩).agentName
      = "Unknown Agent" :=
  (getAllSubmissions_ordered_joined_fallback
      [⟨"s2", "Beta", "giza", "ATM-002", ServiceType.maintenance, "u2", 7⟩] []).2.2
    _ (by decide) (by decide) (by decide)

/-- C9: the `POST /api/submissions` pipeline ignores body fields other than
the four schema columns — two bodies agreeing on those four fields produce
identical outcomes — and every stored row's `agentId` equals the
authenticated caller's id, overriding anything client-supplied. -/
theorem create_ignores_extra_fields
    (ctx : CtxUser) (b1 b2 : Body) (dbase : List Submission)
    (freshId : String) (now : Nat)
    (hc : lookupField b1 "clientName" = lookupField b2 "clientName")
    (hg : lookupField b1 "government" = lookupField b2 "government")
    (ha : lookupField b1 "atmCode" = lookupField b2 "atmCode")
    (hs : lookupField b1 "serviceType" = lookupField b2 "serviceType") :
    createSubmissionRoute ctx b1 dbase freshId now
      = createSubmissionRoute ctx b2 dbase freshId now
    ∧ (∀ db2 row, createSubmissionRoute ctx b1 dbase freshId now
        = CreateOutcome.created db2 row → row.agentId = ctx.id) := by
  have hp : parseInsertSubmission b1 = parseInsertSubmission b2 := by
    unfold parseInsertSubmission parseStringField parseServiceType
    rw [hc, hg, ha, hs]
  constructor
  · unfold createSubmissionRoute
    rw [hp]
  · intro db2 row hrun
    unfold createSubmissionRoute at hrun
    cases hd : parseInsertSubmission b1 with
    | error e =>
      rw [hd] at hrun
      exact absurd hrun (by simp)
    | ok d =>
      rw [hd] at hrun
      dsimp only at hrun
      injection hrun with h1 h2
      rw [← h2]
      rfl

/-- Witness for C9: a body smuggling `agentId`, `id` and `createdAt` behaves
exactly like the clean body, and the stored row belongs to the caller. -/
theorem create_ignores_extra_fields_witness :
    (createSubmissionRoute ⟨"a1", "a@example.org", none, none, Role.agent⟩
        [("clientName", Json.str "Acme"), ("government", Json.str "cairo"),
         ("atmCode", Json.str "ATM-001"), ("serviceType", Json.str "feeding"),
         ("agentId", Json.str "someone-else"), ("id", Json.str "forged"),
         ("createdAt", Json.num 0)] [] "s1" 5
      = createSubmissionRoute ⟨"a1", "a@example.org", none, none, Role.agent⟩
        [("clientName", Json.str "Acme"), ("government", Json.str "cairo"),
         ("atmCode", Json.str "ATM-001"), ("serviceType", Json.str "feeding")]
        [] "s1" 5)
    ∧ (∀ db2 row, createSubmissionRoute ⟨"a1", "a@example.org", none, none, Role.agent⟩
        [("clientName", Json.str "Acme"), ("government", Json.str "cairo"),
         ("atmCode", Json.str "ATM-001"), ("serviceType", Json.str "feeding"),
         ("agentId", Json.str "someone-else"), ("id", Json.str "forged"),
         ("createdAt", Json.num 0)] [] "s1" 5
        = CreateOutcome.created db2 row → row.agentId = "a1") :=
  create_ignores_extra_fields ⟨"a1", "a@example.org", none, none, Role.agent⟩
    [("clientName", Json.str "Acme"), ("government", Json.str "cairo"),
     ("atmCode", Json.str "ATM-001"), ("serviceType", Json.str "feeding"),
     ("agentId", Json.str "someone-else"), ("id", Json.str "forged"),
     ("createdAt", Json.num 0)]
    [("clientName", Json.str "Acme"), ("government", Json.str "cairo"),
     ("atmCode", Json.str "ATM-001"), ("serviceType", Json.str "feeding")]
    [] "s1" 5 (by decide) (by decide) (by decide) (by decide)

/-- Counterexample to C10: the health response body of `registerRoutes`
(`src/server/routes.ts`) carries no `timestamp` field. -/
theorem healthResponseBody_has_no_timestamp :
    lookupField healthResponseBody "timestamp" = none := by
  decide

/-- C10 amended: `GET /api/health` is registered without any middleware —
no authentication — and its JSON body contains `status` and `message` but
no `timestamp`; only the standalone deployment variant's health response
additionally carries `timestamp` (and `env`). -/
theorem health_route_unauthenticated_status_message :
    registeredRoutes.find? (fun r => r.method == "GET" && r.path == "/api/health")
      = some ⟨"GET", "/api/health", []⟩
    ∧ lookupField healthResponseBody "status" = some (Json.str "ok")
    ∧ lookupField healthResponseBody "message" = some (Json.str "Field Agent System API")
    ∧ lookupField healthResponseBody "timestamp" = none
    ∧ (∀ ts env, lookupField (healthResponseBodyStandalone ts env) "timestamp"
        = some (Json.str ts)) := by
  refine ⟨by decide, by decide, by decide, by decide, ?_⟩
  intro ts env
  rfl

end AgentCC
